import Mathlib

/-!
Verification of the card-production parameter lifecycle and provisioning
orchestration logic (the `cardproduction` Python package).

Python strings are modelled as lists of Unicode code points (`PyStr`), with
`str.upper` / `str.lower` modelled as the ASCII case maps (all values the
program manipulates are ASCII hex/decimal strings).  Randomness
(`secrets.token_hex`, `random.randint`) is modelled by passing the drawn
bytes/digits in as explicit arguments.  Python exceptions are modelled with
`Except`; each `raise` site of a validation routine corresponds to one
constructor of an error type.  The filesystem interaction of the
load-or-generate helpers is modelled by a `TomlFile` state passed in and
returned.
-/

/-- A Python string, as its list of code points. -/
abbrev PyStr := List Nat

/-- Code points of a Lean string literal (used to transcribe Python string
literals). -/
def strCodes (s : String) : PyStr :=
  s.toList.map Char.toNat

/-- ASCII model of Python `str.upper` on one character. -/
def upperChar (c : Nat) : Nat :=
  if 97 ≤ c ∧ c ≤ 122 then c - 32 else c

/-- ASCII model of Python `str.lower` on one character. -/
def lowerChar (c : Nat) : Nat :=
  if 65 ≤ c ∧ c ≤ 90 then c + 32 else c

/-- Python `s.upper()`. -/
def pyUpper (s : PyStr) : PyStr := s.map upperChar

/-- Python `s.lower()`. -/
def pyLower (s : PyStr) : PyStr := s.map lowerChar

/-- The literal `"01234567890abcdef"` from `util.is_hex` (source has a
duplicated `0`). -/
def hexDigitCodes : PyStr := strCodes ("01234567890abcdef")

/-- The literal `"0123456789"` from `util.is_digits`. -/
def digitCodes : PyStr := strCodes ("0123456789")

/-- `util.is_hex`: `all(c in "01234567890abcdef" for c in s.lower())`. -/
def is_hex (s : PyStr) : Bool :=
  (pyLower s).all (fun c => decide (c ∈ hexDigitCodes))

/-- `util.is_digits`: `all(c in "0123456789" for c in s)`. -/
def is_digits (s : PyStr) : Bool :=
  s.all (fun c => decide (c ∈ digitCodes))

/-- `util.generate_decimal_pin`: one `randint(0, 9)` draw per digit, each
rendered by `str`; the draws are the explicit input list. -/
def generate_decimal_pin (draws : List (Fin 10)) : PyStr :=
  draws.map (fun d => 48 + d.val)

/-- The sixteen lowercase hex digit characters, used to render bytes. -/
def hexDigitCodes16 : PyStr := strCodes ("0123456789abcdef")

/-- Hex digit character for a nibble value. -/
def hexDigitLC (n : Nat) : Nat := hexDigitCodes16.getD n 0

/-- `secrets.token_hex`: each drawn byte rendered as two lowercase hex
digits; the drawn bytes are the explicit input list. -/
def tokenHex : List (Fin 256) → PyStr
  | [] => []
  | b :: bs => hexDigitLC (b.val / 16) :: hexDigitLC (b.val % 16) :: tokenHex bs

/-- The character class `[0-9A-Fa-f]` named by the specification. -/
def hexClassCodes : PyStr := strCodes ("0123456789abcdefABCDEF")

/-! ## Parameter records (`gp.py`, `gids.py`, `openpgp.py`, `pkcs12.py`)

Each Python dataclass whose `__post_init__` runs a check is modelled as a
plain structure plus an `Except`-valued check function returning the
normalized record (Python mutates the fields in place and raises
`RuntimeError` on failure; each `raise` site is one error constructor,
carrying the offending value as the source interpolates it). -/

deriving instance DecidableEq for Except

/-- `gp.GPParameters`. -/
structure GPParameters where
  key : PyStr
deriving DecidableEq

/-- The default GP lock key: the field default of `GPParameters.key`,
i.e. the record built by `GPParameters()`. -/
def gpDefault : GPParameters :=
  ⟨strCodes ("404142434445464748494A4B4C4D4E4F")⟩

/-- Error raised by `GPParameters.enforce_requirements`, one constructor
per `raise` site. -/
inductive GPErr where
  | keyLength (key : PyStr)
  | keyHex (key : PyStr)
deriving DecidableEq

/-- `GPParameters.enforce_requirements` (`gp.py` lines 44-53): uppercase
the key, then check length 32 and hex digits.  Returns the record as the
method leaves it. -/
def GPParameters.enforce_requirements (p : GPParameters) : Except GPErr GPParameters :=
  let key := pyUpper p.key
  if key.length ≠ 32 then .error (.keyLength key)
  else if is_hex key = false then .error (.keyHex key)
  else .ok ⟨key⟩

/-- `GPParameters.generate` (`gp.py` lines 55-64): `secrets.token_hex(16)`,
then dataclass construction runs `__post_init__` which runs
`enforce_requirements`. -/
def GPParameters.generate (bytes : List (Fin 256)) : Except GPErr GPParameters :=
  GPParameters.enforce_requirements ⟨tokenHex bytes⟩

/-- `gids.GidsAppletParameters`. -/
structure GidsAppletParameters where
  admin_key : PyStr
  sn : PyStr
  pin : PyStr
deriving DecidableEq

/-- Error raised by `GidsAppletParameters.check_requirements`, one
constructor per `raise` site. -/
inductive GidsErr where
  | adminKeyLength (v : PyStr)
  | adminKeyHex (v : PyStr)
  | snLength (v : PyStr)
  | snHex (v : PyStr)
  | pinLength (v : PyStr)
  | pinDigits (v : PyStr)
deriving DecidableEq

/-- `GidsAppletParameters.check_requirements` (`gids.py` lines 35-61). -/
def GidsAppletParameters.check_requirements (p : GidsAppletParameters) :
    Except GidsErr GidsAppletParameters :=
  let admin_key := pyUpper p.admin_key
  if admin_key.length ≠ 48 then .error (.adminKeyLength admin_key)
  else if is_hex admin_key = false then .error (.adminKeyHex admin_key)
  else
    let sn := pyUpper p.sn
    if sn.length ≠ 32 then .error (.snLength sn)
    else if is_hex sn = false then .error (.snHex sn)
    else if p.pin.length ≠ 6 then .error (.pinLength p.pin)
    else if is_digits p.pin = false then .error (.pinDigits p.pin)
    else .ok ⟨admin_key, sn, p.pin⟩

/-- `GidsAppletParameters.generate` (`gids.py` lines 63-69):
`secrets.token_hex(24)`, `secrets.token_hex(16)`, a 6-digit pin from
`randint(0, 9)` draws, then construction runs `check_requirements`. -/
def GidsAppletParameters.generate (adminBytes snBytes : List (Fin 256))
    (pinDraws : List (Fin 10)) : Except GidsErr GidsAppletParameters :=
  GidsAppletParameters.check_requirements
    ⟨tokenHex adminBytes, tokenHex snBytes, generate_decimal_pin pinDraws⟩

/-- `openpgp.OpenPGPAppletInstallParameters`. -/
structure OpenPGPAppletInstallParameters where
  sn : PyStr
  manufacturer_code : PyStr
deriving DecidableEq

/-- Errors raised by the `OpenPGPAppletInstallParameters` methods, one
constructor per `raise` site. -/
inductive PGPInstallErr where
  | snLength (v : PyStr)
  | snHex (v : PyStr)
  | mfrLength (v : PyStr)
  | mfrHex (v : PyStr)
  | mfrNotReserved
deriving DecidableEq

/-- `OpenPGPAppletInstallParameters._check_mfr_code_requirements`
(`openpgp.py` lines 49-58): lowercase the manufacturer code, check length
4 and hex digits. -/
def OpenPGPAppletInstallParameters.check_mfr_code_requirements
    (p : OpenPGPAppletInstallParameters) :
    Except PGPInstallErr OpenPGPAppletInstallParameters :=
  let mc := pyLower p.manufacturer_code
  if mc.length ≠ 4 then .error (.mfrLength mc)
  else if is_hex mc = false then .error (.mfrHex mc)
  else .ok ⟨p.sn, mc⟩

/-- `OpenPGPAppletInstallParameters.is_manufacturer_reserved_for_random_sn`
(`openpgp.py` lines 39-47): run the manufacturer-code checks (which
normalize the field), then report
`manufacturer_code.startswith("fff") and manufacturer_code[-1] != "f"`.
The `[-1]` index is safe because the length-4 check just passed; the
`getD 0` default is unreachable. -/
def OpenPGPAppletInstallParameters.is_manufacturer_reserved_for_random_sn
    (p : OpenPGPAppletInstallParameters) :
    Except PGPInstallErr (OpenPGPAppletInstallParameters × Bool) :=
  match p.check_mfr_code_requirements with
  | .error e => .error e
  | .ok q =>
    .ok (q, (strCodes ("fff")).isPrefixOf q.manufacturer_code
          && (q.manufacturer_code.getLast?.getD 0 != 102))

/-- `OpenPGPAppletInstallParameters.check_requirements` (`openpgp.py`
lines 60-78): uppercase and check the serial number, then run the
manufacturer-code checks and the reserved-range classification (the
source calls `_check_mfr_code_requirements` and then
`is_manufacturer_reserved_for_random_sn`, which re-runs the idempotent
check; an out-of-range code only logs a warning and does not fail). -/
def OpenPGPAppletInstallParameters.check_requirements
    (p : OpenPGPAppletInstallParameters) :
    Except PGPInstallErr OpenPGPAppletInstallParameters :=
  let sn := pyUpper p.sn
  if sn.length ≠ 8 then .error (.snLength sn)
  else if is_hex sn = false then .error (.snHex sn)
  else
    match OpenPGPAppletInstallParameters.is_manufacturer_reserved_for_random_sn
        ⟨sn, p.manufacturer_code⟩ with
    | .error e => .error e
    | .ok (q, _inRandomRange) => .ok q

/-- `OpenPGPAppletInstallParameters.generate` (`openpgp.py` lines 80-89):
`sn = secrets.token_hex(4)`; then `ret = cls(sn=sn)` — note the
`manufacturer_code` argument is NOT passed through, so the field default
`"fff5"` is used — then raise unless
`ret.is_manufacturer_reserved_for_random_sn()`. -/
def OpenPGPAppletInstallParameters.generate (_manufacturer_code : PyStr)
    (snBytes : List (Fin 256)) :
    Except PGPInstallErr OpenPGPAppletInstallParameters :=
  let sn := tokenHex snBytes
  match OpenPGPAppletInstallParameters.check_requirements
      ⟨sn, strCodes ("fff5")⟩ with
  | .error e => .error e
  | .ok ret =>
    match ret.is_manufacturer_reserved_for_random_sn with
    | .error e => .error e
    | .ok (ret2, inRandomRange) =>
      if inRandomRange then .ok ret2 else .error .mfrNotReserved

/-- `openpgp.OpenPGPPins`. -/
structure OpenPGPPins where
  pin : PyStr
  admin_pin : PyStr
deriving DecidableEq

/-- The field defaults of `OpenPGPPins`: the record built by
`OpenPGPPins()`. -/
def pinsDefault : OpenPGPPins :=
  ⟨strCodes ("123456"), strCodes ("12345678")⟩

/-- Error raised by `OpenPGPPins.check_requirements`, one constructor per
`raise` site. -/
inductive PinsErr where
  | adminPinLength (v : PyStr)
  | adminPinDigits (v : PyStr)
  | pinLength (v : PyStr)
  | pinDigits (v : PyStr)
deriving DecidableEq

/-- `OpenPGPPins.check_requirements` (`openpgp.py` lines 116-130): admin
pin length 8-127 and digits, then pin length 6-127 and digits.  No
normalization. -/
def OpenPGPPins.check_requirements (p : OpenPGPPins) : Except PinsErr OpenPGPPins :=
  if p.admin_pin.length < 8 ∨ 127 < p.admin_pin.length then
    .error (.adminPinLength p.admin_pin)
  else if is_digits p.admin_pin = false then .error (.adminPinDigits p.admin_pin)
  else if p.pin.length < 6 ∨ 127 < p.pin.length then .error (.pinLength p.pin)
  else if is_digits p.pin = false then .error (.pinDigits p.pin)
  else .ok p

/-- `OpenPGPPins.generate` (`openpgp.py` lines 132-137):
`generate_decimal_pin(8)` and `generate_decimal_pin(6)`, then construction
runs `check_requirements`. -/
def OpenPGPPins.generate (adminDraws pinDraws : List (Fin 10)) :
    Except PinsErr OpenPGPPins :=
  OpenPGPPins.check_requirements
    ⟨generate_decimal_pin pinDraws, generate_decimal_pin adminDraws⟩

/-- `pkcs12.Pkcs12`. -/
structure Pkcs12 where
  filename : PyStr
  passphrase : Option PyStr
deriving DecidableEq

/-- `gids.GidsAppletKeyLoading`. -/
structure GidsAppletKeyLoading where
  label : PyStr
  key : Pkcs12
deriving DecidableEq

example : (GPParameters.generate (List.replicate 16 (0 : Fin 256))).isOk = true := by decide
example : gpDefault.enforce_requirements = .ok gpDefault := by decide
example : (OpenPGPAppletInstallParameters.generate (strCodes ("ffff"))
    [(0 : Fin 256), 0, 0, 0]) = .ok ⟨strCodes ("00000000"), strCodes ("fff5")⟩ := by decide

/-! ## Parameter store (`cli/common.py`, `cli/produce_smartpgp.py`)

A parameter file is modelled by its state: absent (reading raises
`FileNotFoundError`), malformed (the TOML parser raises), or parseable
into a raw record (`from_dict` then runs the dataclass checks, which may
still raise).  `write_toml` stores `to_dict` of the record, i.e. the
record's current field values. -/

/-- State of a parameter file holding a record of raw type `α`. -/
inductive TomlFile (α : Type) where
  | absent
  | malformed
  | parses (raw : α)
deriving DecidableEq

/-- Failures of a load: `FileNotFoundError`, a TOML decode error, or a
validation error `ε` raised while constructing the record. -/
inductive LoadErr (ε : Type) where
  | fileNotFound
  | tomlDecodeError
  | validation (e : ε)
deriving DecidableEq

/-- `GPParameters.load_toml` (`gp.py` lines 66-71): read and TOML-parse the
file, then `from_dict` constructs the record, running
`enforce_requirements`. -/
def GPParameters.load_toml (file : TomlFile GPParameters) :
    Except (LoadErr GPErr) GPParameters :=
  match file with
  | .absent => .error .fileNotFound
  | .malformed => .error .tomlDecodeError
  | .parses raw =>
    match raw.enforce_requirements with
    | .ok p => .ok p
    | .error e => .error (.validation e)

/-- `common.load_or_generate_gp_params` (`cli/common.py` lines 48-69): try
`GPParameters.load_toml`; only `FileNotFoundError` is swallowed; if a
record was loaded return it, otherwise generate one, write it to the file
and return it.  Returns the outcome together with the resulting file
state. -/
def load_or_generate_gp_params (file : TomlFile GPParameters)
    (genBytes : List (Fin 256)) :
    Except (LoadErr GPErr) GPParameters × TomlFile GPParameters :=
  match GPParameters.load_toml file with
  | .ok loaded => (.ok loaded, file)
  | .error .fileNotFound =>
    match GPParameters.generate genBytes with
    | .ok ret => (.ok ret, .parses ret)
    | .error e => (.error (.validation e), file)
  | .error e => (.error e, file)

/-- `OpenPGPAppletInstallParameters.load_toml` (`openpgp.py` lines 91-96). -/
def OpenPGPAppletInstallParameters.load_toml
    (file : TomlFile OpenPGPAppletInstallParameters) :
    Except (LoadErr PGPInstallErr) OpenPGPAppletInstallParameters :=
  match file with
  | .absent => .error .fileNotFound
  | .malformed => .error .tomlDecodeError
  | .parses raw =>
    match raw.check_requirements with
    | .ok p => .ok p
    | .error e => .error (.validation e)

/-- `produce_smartpgp.load_or_generate_openpgp_install_params`
(`cli/produce_smartpgp.py` lines 46-67); `generate` is called with its
default `manufacturer_code="fff5"` argument. -/
def load_or_generate_openpgp_install_params
    (file : TomlFile OpenPGPAppletInstallParameters)
    (genBytes : List (Fin 256)) :
    Except (LoadErr PGPInstallErr) OpenPGPAppletInstallParameters ×
      TomlFile OpenPGPAppletInstallParameters :=
  match OpenPGPAppletInstallParameters.load_toml file with
  | .ok loaded => (.ok loaded, file)
  | .error .fileNotFound =>
    match OpenPGPAppletInstallParameters.generate (strCodes ("fff5")) genBytes with
    | .ok ret => (.ok ret, .parses ret)
    | .error e => (.error (.validation e), file)
  | .error e => (.error e, file)

/-! ## Card tool adapter calls and orchestration traces

The orchestrators are modelled as the sequence of adapter operations they
invoke, given the already-resolved configuration values (the resolution
itself is the parameter-store model above). -/

/-- Adapter operations invoked by the GIDS `produce` run
(`cli/produce_gids.py`).  `enumerateCerts` is
`Pkcs15Tool.enumerate_certificates` (`pkcs15tool.py` lines 27-38); the
other constructors record the parameters each call site passes. -/
inductive GidsAction where
  | uninstall (current : Option GPParameters)
  | install (current : Option GPParameters)
  | initCard (params : GidsAppletParameters)
  | lockCard (new : GPParameters) (current : Option GPParameters)
  | importKey (label : PyStr)
  | enumerateCerts
deriving DecidableEq

/-- The GIDS `produce` decision sequence (`cli/produce_gids.py` lines
161-219), after config parsing and parameter resolution:
`current_gp_parameters` is `final_gp_parameters` when `locked` is set,
else `None`; unless `skip_install`, uninstall/install/initialize; lock if
a final parameter record exists and differs from current; then
`import_key` for each key-loading entry, in order (lines 214-219 — no
call to `enumerate_certificates` is made). -/
def gidsProduceActions (locked skip_install : Bool)
    (final_gp : Option GPParameters) (gids_parameters : GidsAppletParameters)
    (key_loading : List GidsAppletKeyLoading) : List GidsAction :=
  let current_gp : Option GPParameters := if locked then final_gp else none
  (if skip_install then ([] : List GidsAction)
   else [.uninstall current_gp, .install current_gp, .initCard gids_parameters]) ++
  (match final_gp with
   | none => []
   | some f => if current_gp ≠ some f then [.lockCard f current_gp] else []) ++
  key_loading.map (fun loading => .importKey loading.label)

/-- Adapter operations invoked by the SmartPGP `produce` run
(`cli/produce_smartpgp.py`).  `lockCard` records `GP.lock_card`'s target
and the authentication key it resolves (`gp.py` lines 144-161 substitute
the default `GPParameters()` when `current_params` is falsy); `changePins`
records `SmartPGPApplet.change_pins`'s target and the pins it
authenticates with (`openpgp.py` lines 197-219 substitute the default
`OpenPGPPins()` when `current_pins` is falsy). -/
inductive SmartPGPAction where
  | lockCard (new auth : GPParameters)
  | changePins (target auth : OpenPGPPins)
deriving DecidableEq

/-- Lock-key reconciliation of the SmartPGP `produce` run
(`cli/produce_smartpgp.py` lines 204-221): `if desired is None and
current is not None:` lock to `GPParameters()` authenticating with
current; `elif desired is not None and desired != current:` lock to
desired authenticating with current (the Python comparison of a record
against `None` is unequal). -/
def smartpgpLockActions :
    Option GPParameters → Option GPParameters → List SmartPGPAction
  | none, none => []
  | none, some c => [.lockCard gpDefault c]
  | some d, cur =>
    if some d ≠ cur then [.lockCard d (cur.getD gpDefault)] else []

/-- PIN resolution and reconciliation of the SmartPGP `produce` run
(`cli/produce_smartpgp.py` lines 176-186 and 224-230).  `desiredFile` is
the record `load_or_generate_openpgp_pins` yields when
`desired_pins_filename` is configured; `currentFile` is the record
`OpenPGPPins.load_toml` yields when `current_pins_filename` is
configured.  Note line 186 of the source assigns the loaded CURRENT pins
to the `desired_pins` variable (`desired_pins = OpenPGPPins.load_toml(
config.pin_config.current_pins_filename)`), so `current_pins` is never
set. -/
def smartpgpPinActions (desiredFile currentFile : Option OpenPGPPins) :
    List SmartPGPAction :=
  let current_pins : Option OpenPGPPins := none
  let desired_pins : Option OpenPGPPins := desiredFile
  let desired_pins : Option OpenPGPPins :=
    match currentFile with
    | some cp => some cp
    | none => desired_pins
  match desired_pins with
  | some dp =>
    if some dp ≠ current_pins then
      [.changePins dp (current_pins.getD pinsDefault)]
    else []
  | none => []

/-- `SmartPGPApplet.compute_extra_args` (`openpgp.py` lines 191-195): run
`check_requirements` (which normalizes the record), then return
`["--create", aid]` with
`aid = f"d276000124010304{manufacturer_code}{sn}0000"` built from the
normalized fields. -/
def SmartPGPApplet.compute_extra_args (p : OpenPGPAppletInstallParameters) :
    Except PGPInstallErr (List PyStr) :=
  match p.check_requirements with
  | .error e => .error e
  | .ok q =>
    .ok [strCodes ("--create"),
         strCodes ("d276000124010304") ++ q.manufacturer_code ++ q.sn ++
           strCodes ("0000")]

example :
    smartpgpPinActions none (some ⟨strCodes ("111111"), strCodes ("11111111")⟩) =
      [.changePins ⟨strCodes ("111111"), strCodes ("11111111")⟩ pinsDefault] := by
  decide

example :
    smartpgpLockActions none (some ⟨strCodes ("AA") ++ gpDefault.key.drop 2⟩) =
      [.lockCard gpDefault ⟨strCodes ("AA") ++ gpDefault.key.drop 2⟩] := by
  decide

/-! ## Specification-side predicates

These formalize the vocabulary of the claims themselves (character
classes, hex value of a code, well-formedness of a record, the claimed
orchestration behaviours) to compare against the definitions above. -/

/-- Hex value of one character of `[0-9A-Fa-f]` (0 elsewhere). -/
def specHexCharVal (c : Nat) : Nat :=
  if 48 ≤ c ∧ c ≤ 57 then c - 48
  else if 97 ≤ c ∧ c ≤ 102 then c - 87
  else if 65 ≤ c ∧ c ≤ 70 then c - 55
  else 0

/-- Hex value of a string, most significant digit first. -/
def specHexValue (s : PyStr) : Nat :=
  s.foldl (fun acc c => 16 * acc + specHexCharVal c) 0

/-- The admin-key field of a `GidsAppletParameters` meets its requirement:
48 characters of class `[0-9A-Fa-f]`. -/
abbrev gidsAdminKeyOk (p : GidsAppletParameters) : Prop :=
  p.admin_key.length = 48 ∧ ∀ c ∈ p.admin_key, c ∈ hexClassCodes

/-- The serial-number field meets its requirement: 32 hex characters. -/
abbrev gidsSnOk (p : GidsAppletParameters) : Prop :=
  p.sn.length = 32 ∧ ∀ c ∈ p.sn, c ∈ hexClassCodes

/-- The pin field meets its requirement: 6 decimal digits. -/
abbrev gidsPinOk (p : GidsAppletParameters) : Prop :=
  p.pin.length = 6 ∧ ∀ c ∈ p.pin, c ∈ digitCodes

/-- All fields of a `GidsAppletParameters` meet their requirements. -/
abbrev gidsWellFormed (p : GidsAppletParameters) : Prop :=
  gidsAdminKeyOk p ∧ gidsSnOk p ∧ gidsPinOk p

/-- Field named by a `GidsErr`. -/
def GidsErr.field : GidsErr → String
  | .adminKeyLength _ | .adminKeyHex _ => "admin_key"
  | .snLength _ | .snHex _ => "sn"
  | .pinLength _ | .pinDigits _ => "pin"

/-- The named field of `p` violates its requirement. -/
abbrev gidsFieldInvalid (p : GidsAppletParameters) (f : String) : Prop :=
  (f = "admin_key" ∧ ¬gidsAdminKeyOk p) ∨ (f = "sn" ∧ ¬gidsSnOk p) ∨
    (f = "pin" ∧ ¬gidsPinOk p)

/-- The admin-pin field of an `OpenPGPPins` meets its requirement: 8-127
decimal digits. -/
abbrev pinsAdminPinOk (p : OpenPGPPins) : Prop :=
  8 ≤ p.admin_pin.length ∧ p.admin_pin.length ≤ 127 ∧ ∀ c ∈ p.admin_pin, c ∈ digitCodes

/-- The pin field of an `OpenPGPPins` meets its requirement: 6-127 decimal
digits. -/
abbrev pinsPinOk (p : OpenPGPPins) : Prop :=
  6 ≤ p.pin.length ∧ p.pin.length ≤ 127 ∧ ∀ c ∈ p.pin, c ∈ digitCodes

/-- All fields of an `OpenPGPPins` meet their requirements. -/
abbrev pinsWellFormed (p : OpenPGPPins) : Prop :=
  pinsAdminPinOk p ∧ pinsPinOk p

/-- Field named by a `PinsErr`. -/
def PinsErr.field : PinsErr → String
  | .adminPinLength _ | .adminPinDigits _ => "admin_pin"
  | .pinLength _ | .pinDigits _ => "pin"

/-- The named field of `p` violates its requirement. -/
abbrev pinsFieldInvalid (p : OpenPGPPins) (f : String) : Prop :=
  (f = "admin_pin" ∧ ¬pinsAdminPinOk p) ∨ (f = "pin" ∧ ¬pinsPinOk p)

/-- A valid `OpenPGPAppletInstallParameters` record: 8-hex-character
serial number, 4-hex-character manufacturer code. -/
abbrev pgpInstallValid (p : OpenPGPAppletInstallParameters) : Prop :=
  p.sn.length = 8 ∧ (∀ c ∈ p.sn, c ∈ hexClassCodes) ∧
    p.manufacturer_code.length = 4 ∧ ∀ c ∈ p.manufacturer_code, c ∈ hexClassCodes

/-- Recognizes the `import_key` actions of a GIDS trace. -/
def isImportKeyAction : GidsAction → Bool
  | .importKey _ => true
  | _ => false

/-- Claim C1 as stated, as a property of the GIDS produce trace: the run
calls `enumerate_certificates` exactly once, skips each request whose
label is in the present set, and imports each request whose label is
not. -/
abbrev claimC1Property (present : List PyStr) (locked skip_install : Bool)
    (final_gp : Option GPParameters) (gids_parameters : GidsAppletParameters)
    (key_loading : List GidsAppletKeyLoading) : Prop :=
  let acts := gidsProduceActions locked skip_install final_gp gids_parameters key_loading
  acts.count .enumerateCerts = 1 ∧
    ∀ r ∈ key_loading,
      (r.label ∈ present → GidsAction.importKey r.label ∉ acts) ∧
      (r.label ∉ present → GidsAction.importKey r.label ∈ acts)

/-- Claim C4's PIN reconciliation table, from the specification's words:
the same tie-break table as lock-key reconciliation, over `OpenPGPPins`,
with the applet's pin-change operation. -/
def specPinReconciliation (desired current : Option OpenPGPPins) :
    List SmartPGPAction :=
  match desired, current with
  | none, none => []
  | none, some c => [.changePins pinsDefault c]
  | some d, cur =>
    if some d ≠ cur then [.changePins d (cur.getD pinsDefault)] else []

/-! ## Helper lemmas -/

lemma pyUpper_length (s : PyStr) : (pyUpper s).length = s.length :=
  List.length_map s upperChar

lemma pyLower_length (s : PyStr) : (pyLower s).length = s.length :=
  List.length_map s lowerChar

lemma upperChar_upperChar (c : Nat) : upperChar (upperChar c) = upperChar c := by
  simp only [upperChar]
  split <;> (try split) <;> omega

lemma pyUpper_pyUpper (s : PyStr) : pyUpper (pyUpper s) = pyUpper s := by
  simp only [pyUpper, List.map_map]
  exact List.map_congr_left fun c _ => upperChar_upperChar c

lemma mem_lower_upper_hex (c : Nat) :
    lowerChar (upperChar c) ∈ hexDigitCodes ↔ c ∈ hexClassCodes := by
  have h1 : hexDigitCodes =
      [48, 49, 50, 51, 52, 53, 54, 55, 56, 57, 48, 97, 98, 99, 100, 101, 102] := by
    decide
  have h2 : hexClassCodes =
      [48, 49, 50, 51, 52, 53, 54, 55, 56, 57, 97, 98, 99, 100, 101, 102,
       65, 66, 67, 68, 69, 70] := by decide
  rw [h1, h2]
  simp only [lowerChar, upperChar, List.mem_cons, List.not_mem_nil, or_false]
  split <;> (try split) <;> omega

lemma mem_lower_lower_hex (c : Nat) :
    lowerChar (lowerChar c) ∈ hexDigitCodes ↔ c ∈ hexClassCodes := by
  have h1 : hexDigitCodes =
      [48, 49, 50, 51, 52, 53, 54, 55, 56, 57, 48, 97, 98, 99, 100, 101, 102] := by
    decide
  have h2 : hexClassCodes =
      [48, 49, 50, 51, 52, 53, 54, 55, 56, 57, 97, 98, 99, 100, 101, 102,
       65, 66, 67, 68, 69, 70] := by decide
  rw [h1, h2]
  simp only [lowerChar, List.mem_cons, List.not_mem_nil, or_false]
  split <;> (try split) <;> omega

lemma is_hex_pyUpper_iff (s : PyStr) :
    is_hex (pyUpper s) = true ↔ ∀ c ∈ s, c ∈ hexClassCodes := by
  simp [is_hex, pyUpper, pyLower, List.all_eq_true, mem_lower_upper_hex]

lemma is_hex_pyLower_iff (s : PyStr) :
    is_hex (pyLower s) = true ↔ ∀ c ∈ s, c ∈ hexClassCodes := by
  simp [is_hex, pyLower, List.all_eq_true, mem_lower_lower_hex]

lemma is_digits_iff (s : PyStr) :
    is_digits s = true ↔ ∀ c ∈ s, c ∈ digitCodes := by
  simp [is_digits, List.all_eq_true]

lemma mem_class_upperChar {c : Nat} (h : c ∈ hexClassCodes) :
    upperChar c ∈ hexClassCodes := by
  revert h
  revert c
  decide

lemma mem_class_lowerChar {c : Nat} (h : c ∈ hexClassCodes) :
    lowerChar c ∈ hexClassCodes := by
  revert h
  revert c
  decide

lemma pyUpper_mem_class {s : PyStr} (h : ∀ c ∈ s, c ∈ hexClassCodes) :
    ∀ c ∈ pyUpper s, c ∈ hexClassCodes := by
  intro c hc
  obtain ⟨a, ha, rfl⟩ := List.mem_map.mp hc
  exact mem_class_upperChar (h a ha)

lemma pyLower_mem_class {s : PyStr} (h : ∀ c ∈ s, c ∈ hexClassCodes) :
    ∀ c ∈ pyLower s, c ∈ hexClassCodes := by
  intro c hc
  obtain ⟨a, ha, rfl⟩ := List.mem_map.mp hc
  exact mem_class_lowerChar (h a ha)

lemma tokenHex_length (bs : List (Fin 256)) :
    (tokenHex bs).length = 2 * bs.length := by
  induction bs with
  | nil => rfl
  | cons b bs ih =>
    simp [tokenHex, ih]
    ring

lemma hexDigitLC_mem {n : Nat} (h : n < 16) : hexDigitLC n ∈ hexClassCodes := by
  revert h
  revert n
  decide

lemma tokenHex_mem (bs : List (Fin 256)) : ∀ c ∈ tokenHex bs, c ∈ hexClassCodes := by
  induction bs with
  | nil => simp [tokenHex]
  | cons b bs ih =>
    intro c hc
    simp only [tokenHex, List.mem_cons] at hc
    rcases hc with h | h | h
    · exact h ▸ hexDigitLC_mem (Nat.div_lt_of_lt_mul (by omega))
    · exact h ▸ hexDigitLC_mem (Nat.mod_lt _ (by omega))
    · exact ih c h

lemma generate_decimal_pin_length (ds : List (Fin 10)) :
    (generate_decimal_pin ds).length = ds.length :=
  List.length_map ds _

lemma generate_decimal_pin_mem (ds : List (Fin 10)) :
    ∀ c ∈ generate_decimal_pin ds, c ∈ digitCodes := by
  intro c hc
  obtain ⟨d, _, rfl⟩ := List.mem_map.mp hc
  have : ∀ d : Fin 10, 48 + d.val ∈ digitCodes := by decide
  exact this d

lemma hexCharVal_le {c : Nat} (h : c ∈ hexClassCodes) : specHexCharVal c ≤ 15 := by
  revert h
  revert c
  decide

lemma lower_eq_102_iff {c : Nat} (h : c ∈ hexClassCodes) :
    lowerChar c = 102 ↔ specHexCharVal c = 15 := by
  revert h
  revert c
  decide

lemma gp_enforce_ok (p : GPParameters) (h1 : p.key.length = 32)
    (h2 : ∀ c ∈ p.key, c ∈ hexClassCodes) :
    p.enforce_requirements = .ok ⟨pyUpper p.key⟩ := by
  simp [GPParameters.enforce_requirements, pyUpper_length, h1,
    (is_hex_pyUpper_iff p.key).mpr h2]

lemma gp_generate_ok (bytes : List (Fin 256)) (h : bytes.length = 16) :
    GPParameters.generate bytes = .ok ⟨pyUpper (tokenHex bytes)⟩ := by
  unfold GPParameters.generate
  exact gp_enforce_ok _ (by rw [tokenHex_length, h]) (tokenHex_mem bytes)

lemma gp_enforce_generated (bytes : List (Fin 256)) (h : bytes.length = 16) :
    GPParameters.enforce_requirements ⟨pyUpper (tokenHex bytes)⟩ =
      .ok ⟨pyUpper (tokenHex bytes)⟩ := by
  have := gp_enforce_ok ⟨pyUpper (tokenHex bytes)⟩
    (by simp [pyUpper_length, tokenHex_length, h])
    (pyUpper_mem_class (tokenHex_mem bytes))
  simpa [pyUpper_pyUpper] using this

lemma gids_check_ok (p : GidsAppletParameters) (h : gidsWellFormed p) :
    p.check_requirements = .ok ⟨pyUpper p.admin_key, pyUpper p.sn, p.pin⟩ := by
  obtain ⟨⟨ha1, ha2⟩, ⟨hs1, hs2⟩, hp1, hp2⟩ := h
  simp [GidsAppletParameters.check_requirements, pyUpper_length, ha1, hs1, hp1,
    (is_hex_pyUpper_iff _).mpr ha2, (is_hex_pyUpper_iff _).mpr hs2,
    (is_digits_iff _).mpr hp2]

lemma gids_check_cases (p : GidsAppletParameters) :
    (p.check_requirements = .ok ⟨pyUpper p.admin_key, pyUpper p.sn, p.pin⟩ ∧
        gidsWellFormed p) ∨
      ∃ e, p.check_requirements = .error e ∧ ¬gidsWellFormed p ∧
        gidsFieldInvalid p e.field := by
  by_cases h : gidsWellFormed p
  · exact .inl ⟨gids_check_ok p h, h⟩
  · refine .inr ?_
    simp only [GidsAppletParameters.check_requirements]
    split_ifs with h1 h2 h3 h4 h5 h6
    · exact ⟨_, rfl, h, .inl ⟨rfl, fun hk => h1 (by rw [pyUpper_length]; exact hk.1)⟩⟩
    · refine ⟨_, rfl, h, .inl ⟨rfl, fun hk => ?_⟩⟩
      rw [(is_hex_pyUpper_iff _).mpr hk.2] at h2
      exact absurd h2 (by simp)
    · exact ⟨_, rfl, h, .inr (.inl ⟨rfl, fun hk => h3 (by rw [pyUpper_length]; exact hk.1)⟩)⟩
    · refine ⟨_, rfl, h, .inr (.inl ⟨rfl, fun hk => ?_⟩)⟩
      rw [(is_hex_pyUpper_iff _).mpr hk.2] at h4
      exact absurd h4 (by simp)
    · exact ⟨_, rfl, h, .inr (.inr ⟨rfl, fun hk => h5 hk.1⟩)⟩
    · refine ⟨_, rfl, h, .inr (.inr ⟨rfl, fun hk => ?_⟩)⟩
      rw [(is_digits_iff _).mpr hk.2] at h6
      exact absurd h6 (by simp)
    · exact absurd ⟨⟨by have := pyUpper_length p.admin_key; omega,
        (is_hex_pyUpper_iff _).mp (by simpa using h2)⟩,
        ⟨by have := pyUpper_length p.sn; omega,
         (is_hex_pyUpper_iff _).mp (by simpa using h4)⟩,
        by omega, (is_digits_iff _).mp (by simpa using h6)⟩ h

lemma pins_check_ok (p : OpenPGPPins) (h : pinsWellFormed p) :
    p.check_requirements = .ok p := by
  obtain ⟨⟨ha1, ha2, ha3⟩, hp1, hp2, hp3⟩ := h
  have c1 : ¬(p.admin_pin.length < 8 ∨ 127 < p.admin_pin.length) := by omega
  have c2 : ¬(p.pin.length < 6 ∨ 127 < p.pin.length) := by omega
  simp [OpenPGPPins.check_requirements, c1, c2, (is_digits_iff _).mpr ha3,
    (is_digits_iff _).mpr hp3]

lemma pins_check_cases (p : OpenPGPPins) :
    (p.check_requirements = .ok p ∧ pinsWellFormed p) ∨
      ∃ e, p.check_requirements = .error e ∧ ¬pinsWellFormed p ∧
        pinsFieldInvalid p e.field := by
  by_cases h : pinsWellFormed p
  · exact .inl ⟨pins_check_ok p h, h⟩
  · refine .inr ?_
    simp only [OpenPGPPins.check_requirements]
    split_ifs with h1 h2 h3 h4
    · exact ⟨_, rfl, h, .inl ⟨rfl, fun hk => by obtain ⟨k1, k2, k3⟩ := hk; omega⟩⟩
    · refine ⟨_, rfl, h, .inl ⟨rfl, fun hk => ?_⟩⟩
      rw [(is_digits_iff _).mpr hk.2.2] at h2
      exact absurd h2 (by simp)
    · exact ⟨_, rfl, h, .inr ⟨rfl, fun hk => by obtain ⟨k1, k2, k3⟩ := hk; omega⟩⟩
    · refine ⟨_, rfl, h, .inr ⟨rfl, fun hk => ?_⟩⟩
      rw [(is_digits_iff _).mpr hk.2.2] at h4
      exact absurd h4 (by simp)
    · exact absurd ⟨⟨by omega, by omega, (is_digits_iff _).mp (by simpa using h2)⟩,
        by omega, by omega, (is_digits_iff _).mp (by simpa using h4)⟩ h

lemma mfr_check_ok (sn mc : PyStr) (h3 : mc.length = 4)
    (h4 : ∀ c ∈ mc, c ∈ hexClassCodes) :
    OpenPGPAppletInstallParameters.check_mfr_code_requirements ⟨sn, mc⟩ =
      .ok ⟨sn, pyLower mc⟩ := by
  simp [OpenPGPAppletInstallParameters.check_mfr_code_requirements,
    pyLower_length, h3, (is_hex_pyLower_iff mc).mpr h4]

lemma reserved_eq (sn mc : PyStr) (h3 : mc.length = 4)
    (h4 : ∀ c ∈ mc, c ∈ hexClassCodes) :
    OpenPGPAppletInstallParameters.is_manufacturer_reserved_for_random_sn ⟨sn, mc⟩ =
      .ok (⟨sn, pyLower mc⟩,
        (strCodes ("fff")).isPrefixOf (pyLower mc) &&
          ((pyLower mc).getLast?.getD 0 != 102)) := by
  simp [OpenPGPAppletInstallParameters.is_manufacturer_reserved_for_random_sn,
    mfr_check_ok sn mc h3 h4]

lemma pgp_check_ok (p : OpenPGPAppletInstallParameters) (h : pgpInstallValid p) :
    p.check_requirements = .ok ⟨pyUpper p.sn, pyLower p.manufacturer_code⟩ := by
  obtain ⟨h1, h2, h3, h4⟩ := h
  simp [OpenPGPAppletInstallParameters.check_requirements, pyUpper_length, h1,
    (is_hex_pyUpper_iff _).mpr h2,
    reserved_eq (pyUpper p.sn) p.manufacturer_code h3 h4]

lemma pgp_generate_any (mc : PyStr) (bytes : List (Fin 256)) (h : bytes.length = 4) :
    OpenPGPAppletInstallParameters.generate mc bytes =
      .ok ⟨pyUpper (tokenHex bytes), strCodes ("fff5")⟩ := by
  unfold OpenPGPAppletInstallParameters.generate
  have hlow : pyLower (strCodes ("fff5")) = strCodes ("fff5") := by decide
  have hv : pgpInstallValid ⟨tokenHex bytes, strCodes ("fff5")⟩ := by
    refine ⟨?_, tokenHex_mem bytes, ?_, ?_⟩
    · rw [tokenHex_length, h]
    · show (strCodes ("fff5")).length = 4
      decide
    · show ∀ c ∈ strCodes ("fff5"), c ∈ hexClassCodes
      decide
  have hc : OpenPGPAppletInstallParameters.check_requirements
      ⟨tokenHex bytes, strCodes ("fff5")⟩ =
      .ok ⟨pyUpper (tokenHex bytes), strCodes ("fff5")⟩ := by
    have := pgp_check_ok ⟨tokenHex bytes, strCodes ("fff5")⟩ hv
    simpa [hlow] using this
  have hr := reserved_eq (pyUpper (tokenHex bytes)) (strCodes ("fff5"))
    (by decide) (by decide)
  have hb : ((strCodes ("fff")).isPrefixOf (strCodes ("fff5")) &&
      ((strCodes ("fff5")).getLast?.getD 0 != 102)) = true := by decide
  simp [hc, hr, hlow, hb]

lemma reserved_bool_iff (c1 c2 c3 c4 : Nat) (m1 : c1 ∈ hexClassCodes)
    (m2 : c2 ∈ hexClassCodes) (m3 : c3 ∈ hexClassCodes) (m4 : c4 ∈ hexClassCodes) :
    ((strCodes ("fff")).isPrefixOf (pyLower [c1, c2, c3, c4]) &&
        ((pyLower [c1, c2, c3, c4]).getLast?.getD 0 != 102)) = true ↔
      65520 ≤ specHexValue [c1, c2, c3, c4] ∧ specHexValue [c1, c2, c3, c4] ≤ 65534 := by
  have hfff : strCodes ("fff") = [102, 102, 102] := by decide
  have b1 := hexCharVal_le m1
  have b2 := hexCharVal_le m2
  have b3 := hexCharVal_le m3
  have b4 := hexCharVal_le m4
  have e1 : (102 = lowerChar c1) ↔ specHexCharVal c1 = 15 :=
    eq_comm.trans (lower_eq_102_iff m1)
  have e2 : (102 = lowerChar c2) ↔ specHexCharVal c2 = 15 :=
    eq_comm.trans (lower_eq_102_iff m2)
  have e3 : (102 = lowerChar c3) ↔ specHexCharVal c3 = 15 :=
    eq_comm.trans (lower_eq_102_iff m3)
  have e4 : (lowerChar c4 = 102) ↔ specHexCharVal c4 = 15 := lower_eq_102_iff m4
  rw [hfff]
  simp only [pyLower, List.map_cons, List.map_nil, List.isPrefixOf, List.getLast?,
    List.getLast, Bool.and_eq_true, beq_iff_eq, bne_iff_ne, ne_eq, Option.getD_some,
    specHexValue, List.foldl_cons, List.foldl_nil]
  rw [e1, e2, e3, e4]
  set v1 := specHexCharVal c1
  set v2 := specHexCharVal c2
  set v3 := specHexCharVal c3
  set v4 := specHexCharVal c4
  constructor
  · rintro ⟨⟨h1, h2, h3, -⟩, h4⟩
    omega
  · rintro ⟨hlo, hhi⟩
    have g1 : v1 = 15 := by omega
    have g2 : v2 = 15 := by omega
    have g3 : v3 = 15 := by omega
    exact ⟨⟨g1, g2, g3, trivial⟩, by omega⟩

/-! ## Claim theorems -/

/-- C3: lock-key reconciliation of the SmartPGP produce run follows the
four-case tie-break table: both absent, no lock; desired absent and
current present, lock to the factory default authenticating with current;
desired present and current absent or structurally unequal, lock to
desired authenticating with current (or the factory default); desired
structurally equal to current, no lock. -/
theorem claim_C3 :
    smartpgpLockActions none none = [] ∧
    (∀ c, smartpgpLockActions none (some c) = [.lockCard gpDefault c]) ∧
    (∀ d, smartpgpLockActions (some d) none = [.lockCard d gpDefault]) ∧
    (∀ d c, d ≠ c →
      smartpgpLockActions (some d) (some c) = [.lockCard d c]) ∧
    (∀ d, smartpgpLockActions (some d) (some d) = []) := by
  refine ⟨rfl, fun c => rfl, fun d => ?_, fun d c h => ?_, fun d => ?_⟩
  · simp [smartpgpLockActions]
  · simp [smartpgpLockActions, h]
  · simp [smartpgpLockActions]

/-- Witness for C3 at concrete inputs: an all-zero desired key differs
from the default current key, so the run locks to it authenticating with
the current key. -/
theorem claim_C3_witness :
    smartpgpLockActions (some ⟨List.replicate 32 48⟩) (some gpDefault) =
      [.lockCard ⟨List.replicate 32 48⟩ gpDefault] :=
  claim_C3.2.2.2.1 ⟨List.replicate 32 48⟩ gpDefault (by decide)

/-- C4 counterexample: with no desired-pins file and a current-pins file
holding pins X, the claimed tie-break table calls for a pin change back to
the defaults authenticating with X, but the run loads X into the
desired-pins variable (`cli/produce_smartpgp.py` line 186) and instead
changes the pins to X authenticating with the defaults. -/
theorem claim_C4_counterexample :
    smartpgpPinActions none (some ⟨strCodes ("111111"), strCodes ("11111111")⟩) ≠
      specPinReconciliation none (some ⟨strCodes ("111111"), strCodes ("11111111")⟩) := by
  decide

/-- C4 amended: the current-pins file, when configured, is loaded into the
desired-pins variable, and the current-pins variable is never set; a pin
change is invoked exactly when the resulting desired value is present,
with that value as target, authenticating with the default pins.  No
reset-to-default branch exists. -/
theorem claim_C4 :
    (∀ desiredFile x, smartpgpPinActions desiredFile (some x) =
      [.changePins x pinsDefault]) ∧
    (∀ y, smartpgpPinActions (some y) none = [.changePins y pinsDefault]) ∧
    smartpgpPinActions none none = [] := by
  refine ⟨fun dF x => ?_, fun y => ?_, rfl⟩ <;> simp [smartpgpPinActions]

/-- C5: `OpenPGPAppletInstallParameters.generate`, asked to generate under
manufacturer codes outside the auto-generation range 0xFFF0-0xFFFE
(`"ffff"`, hex value 65535, and `"1234"`), returns a record instead of
raising: the `manufacturer_code` argument is dropped (`openpgp.py` line
84, `ret = cls(sn=sn)`), so the record carries the default code
`"fff5"`. -/
theorem claim_C5 :
    OpenPGPAppletInstallParameters.generate (strCodes ("ffff"))
        [(0 : Fin 256), 0, 0, 0] =
      .ok ⟨strCodes ("00000000"), strCodes ("fff5")⟩ ∧
    OpenPGPAppletInstallParameters.generate (strCodes ("1234"))
        [(0 : Fin 256), 0, 0, 0] =
      .ok ⟨strCodes ("00000000"), strCodes ("fff5")⟩ ∧
    65534 < specHexValue (strCodes ("ffff")) ∧
    specHexValue (strCodes ("1234")) < 65520 := by
  refine ⟨by decide, by decide, by decide, by decide⟩

/-- C6: for every 4-hex-digit manufacturer code, in either input case, the
classification reports it reserved for random serial-number assignment
exactly when its hex value lies in 0xFFF0..0xFFFE inclusive (so 0xFFFF
and every code outside the `fff` prefix classify as not
auto-generatable), and it lowercases the stored code. -/
theorem claim_C6 (sn mc : PyStr) (hlen : mc.length = 4)
    (hmem : ∀ c ∈ mc, c ∈ hexClassCodes) :
    ∃ b, OpenPGPAppletInstallParameters.is_manufacturer_reserved_for_random_sn
        ⟨sn, mc⟩ = .ok (⟨sn, pyLower mc⟩, b) ∧
      (b = true ↔ 65520 ≤ specHexValue mc ∧ specHexValue mc ≤ 65534) := by
  refine ⟨_, reserved_eq sn mc hlen hmem, ?_⟩
  match mc, hlen with
  | [c1, c2, c3, c4], _ =>
    have m1 : c1 ∈ hexClassCodes := hmem c1 (by simp)
    have m2 : c2 ∈ hexClassCodes := hmem c2 (by simp)
    have m3 : c3 ∈ hexClassCodes := hmem c3 (by simp)
    have m4 : c4 ∈ hexClassCodes := hmem c4 (by simp)
    exact reserved_bool_iff c1 c2 c3 c4 m1 m2 m3 m4

lemma filter_import_map (kl : List GidsAppletKeyLoading) :
    (kl.map (fun l => GidsAction.importKey l.label)).filter isImportKeyAction =
      kl.map (fun l => GidsAction.importKey l.label) := by
  induction kl with
  | nil => rfl
  | cons a t ih => simp [isImportKeyAction, ih]

/-- C1 counterexample: a run with a single key-loading request labelled
`"mykey"` while `"mykey"` is among the labels present on the card.  The
claim requires one `enumerate_certificates` call and no import; the
produce loop (`cli/produce_gids.py` lines 214-219) never calls
`enumerate_certificates` and imports the request anyway. -/
theorem claim_C1_counterexample :
    ¬claimC1Property [strCodes ("mykey")] false true none
      ⟨List.replicate 48 48, List.replicate 32 48, strCodes ("123456")⟩
      [⟨strCodes ("mykey"), ⟨strCodes ("key.p12"), none⟩⟩] := by
  decide

/-- C1 amended: the GIDS provisioning run never calls
`enumerate_certificates`, and invokes `import_key` once per configured
key-loading request, in list order, regardless of which labels are
already present on the card. -/
theorem claim_C1 (locked skip_install : Bool) (final_gp : Option GPParameters)
    (gids_parameters : GidsAppletParameters)
    (key_loading : List GidsAppletKeyLoading) :
    GidsAction.enumerateCerts ∉
      gidsProduceActions locked skip_install final_gp gids_parameters key_loading ∧
    (gidsProduceActions locked skip_install final_gp gids_parameters
        key_loading).filter isImportKeyAction =
      key_loading.map (fun l => GidsAction.importKey l.label) := by
  unfold gidsProduceActions
  cases skip_install <;> cases locked <;> cases final_gp <;>
    simp [List.filter_append, List.mem_append, isImportKeyAction,
      filter_import_map, List.mem_map]

/-- Witness for C1 (amended) at a concrete configuration: full install,
locking enabled, two key-loading requests. -/
theorem claim_C1_witness :
    GidsAction.enumerateCerts ∉
      gidsProduceActions true false (some gpDefault)
        ⟨List.replicate 48 48, List.replicate 32 48, strCodes ("123456")⟩
        [⟨strCodes ("mykey"), ⟨strCodes ("key.p12"), none⟩⟩,
         ⟨strCodes ("otherkey"), ⟨strCodes ("o.p12"), none⟩⟩] ∧
    (gidsProduceActions true false (some gpDefault)
        ⟨List.replicate 48 48, List.replicate 32 48, strCodes ("123456")⟩
        [⟨strCodes ("mykey"), ⟨strCodes ("key.p12"), none⟩⟩,
         ⟨strCodes ("otherkey"), ⟨strCodes ("o.p12"), none⟩⟩]).filter
        isImportKeyAction =
      [.importKey (strCodes ("mykey")), .importKey (strCodes ("otherkey"))] :=
  ⟨(claim_C1 true false (some gpDefault) _ _).1,
   ((claim_C1 true false (some gpDefault)
      ⟨List.replicate 48 48, List.replicate 32 48, strCodes ("123456")⟩
      [⟨strCodes ("mykey"), ⟨strCodes ("key.p12"), none⟩⟩,
       ⟨strCodes ("otherkey"), ⟨strCodes ("o.p12"), none⟩⟩]).2).trans (by decide)⟩

/-- C2: `load_or_generate` (both the GP-parameters and the
OpenPGP-install-parameters variant) generates and persists a fresh record
exactly when the read fails with file-not-found; a TOML decode error or a
validation error of an existing file propagates, nothing is generated and
the file is left unchanged, while a successful load returns the loaded
record without touching the file. -/
theorem claim_C2 (bytes16 bytes4 : List (Fin 256))
    (h16 : bytes16.length = 16) (h4 : bytes4.length = 4) :
    (load_or_generate_gp_params .absent bytes16 =
      (.ok ⟨pyUpper (tokenHex bytes16)⟩, .parses ⟨pyUpper (tokenHex bytes16)⟩)) ∧
    (load_or_generate_gp_params .malformed bytes16 =
      (.error .tomlDecodeError, .malformed)) ∧
    (∀ (raw : GPParameters) (e : GPErr), raw.enforce_requirements = .error e →
      load_or_generate_gp_params (.parses raw) bytes16 =
        (.error (.validation e), .parses raw)) ∧
    (∀ (raw p : GPParameters), raw.enforce_requirements = .ok p →
      load_or_generate_gp_params (.parses raw) bytes16 = (.ok p, .parses raw)) ∧
    (load_or_generate_openpgp_install_params .absent bytes4 =
      (.ok ⟨pyUpper (tokenHex bytes4), strCodes ("fff5")⟩,
       .parses ⟨pyUpper (tokenHex bytes4), strCodes ("fff5")⟩)) ∧
    (load_or_generate_openpgp_install_params .malformed bytes4 =
      (.error .tomlDecodeError, .malformed)) ∧
    (∀ (raw : OpenPGPAppletInstallParameters) (e : PGPInstallErr),
      raw.check_requirements = .error e →
      load_or_generate_openpgp_install_params (.parses raw) bytes4 =
        (.error (.validation e), .parses raw)) ∧
    (∀ (raw p : OpenPGPAppletInstallParameters), raw.check_requirements = .ok p →
      load_or_generate_openpgp_install_params (.parses raw) bytes4 =
        (.ok p, .parses raw)) := by
  refine ⟨?_, rfl, ?_, ?_, ?_, rfl, ?_, ?_⟩
  · simp [load_or_generate_gp_params, GPParameters.load_toml,
      gp_generate_ok bytes16 h16]
  · intro raw e he
    simp [load_or_generate_gp_params, GPParameters.load_toml, he]
  · intro raw p hp
    simp [load_or_generate_gp_params, GPParameters.load_toml, hp]
  · simp [load_or_generate_openpgp_install_params,
      OpenPGPAppletInstallParameters.load_toml,
      pgp_generate_any (strCodes ("fff5")) bytes4 h4]
  · intro raw e he
    simp [load_or_generate_openpgp_install_params,
      OpenPGPAppletInstallParameters.load_toml, he]
  · intro raw p hp
    simp [load_or_generate_openpgp_install_params,
      OpenPGPAppletInstallParameters.load_toml, hp]

/-- Witness for C2: concrete zero bytes; the absent-file case generates
and persists, and an existing file whose record fails validation (empty
key) propagates the validation error and leaves the file unchanged. -/
theorem claim_C2_witness :
    load_or_generate_gp_params .absent (List.replicate 16 (0 : Fin 256)) =
      (.ok ⟨pyUpper (tokenHex (List.replicate 16 (0 : Fin 256)))⟩,
       .parses ⟨pyUpper (tokenHex (List.replicate 16 (0 : Fin 256)))⟩) ∧
    load_or_generate_gp_params (.parses ⟨[]⟩) (List.replicate 16 (0 : Fin 256)) =
      (.error (.validation (.keyLength [])), .parses ⟨[]⟩) := by
  have h := claim_C2 (List.replicate 16 (0 : Fin 256))
    (List.replicate 4 (0 : Fin 256)) (by decide) (by decide)
  exact ⟨h.1, h.2.2.1 ⟨[]⟩ (.keyLength []) (by decide)⟩

/-- C7: validation of a `GidsAppletParameters` record succeeds exactly
when every field has its required width and character class (hex for the
admin key and serial number, regardless of input case; decimal for the
pin), normalizes the hex fields to uppercase, and on failure the raised
error names an offending field; likewise for the variable-width
`OpenPGPPins` record (pin length ranges instead of fixed widths, no
normalization). -/
theorem claim_C7 :
    (∀ p : GidsAppletParameters,
      ((∃ q, p.check_requirements = .ok q) ↔ gidsWellFormed p) ∧
      (∀ q, p.check_requirements = .ok q →
        q = ⟨pyUpper p.admin_key, pyUpper p.sn, p.pin⟩) ∧
      (∀ e, p.check_requirements = .error e → gidsFieldInvalid p e.field)) ∧
    (∀ p : OpenPGPPins,
      ((∃ q, p.check_requirements = .ok q) ↔ pinsWellFormed p) ∧
      (∀ q, p.check_requirements = .ok q → q = p) ∧
      (∀ e, p.check_requirements = .error e → pinsFieldInvalid p e.field)) := by
  constructor
  · intro p
    rcases gids_check_cases p with ⟨hok, hwf⟩ | ⟨e, herr, hnwf, hinv⟩
    · refine ⟨⟨fun _ => hwf, fun _ => ⟨_, hok⟩⟩, ?_, ?_⟩
      · intro q hq
        exact (Except.ok.inj (hok.symm.trans hq)).symm
      · intro e2 he2
        rw [hok] at he2
        simp at he2
    · refine ⟨⟨?_, fun hwf => absurd hwf hnwf⟩, ?_, ?_⟩
      · rintro ⟨q, hq⟩
        rw [herr] at hq
        simp at hq
      · intro q hq
        rw [herr] at hq
        simp at hq
      · intro e2 he2
        rw [herr] at he2
        exact Except.error.inj he2 ▸ hinv
  · intro p
    rcases pins_check_cases p with ⟨hok, hwf⟩ | ⟨e, herr, hnwf, hinv⟩
    · refine ⟨⟨fun _ => hwf, fun _ => ⟨_, hok⟩⟩, ?_, ?_⟩
      · intro q hq
        exact (Except.ok.inj (hok.symm.trans hq)).symm
      · intro e2 he2
        rw [hok] at he2
        simp at he2
    · refine ⟨⟨?_, fun hwf => absurd hwf hnwf⟩, ?_, ?_⟩
      · rintro ⟨q, hq⟩
        rw [herr] at hq
        simp at hq
      · intro q hq
        rw [herr] at hq
        simp at hq
      · intro e2 he2
        rw [herr] at he2
        exact Except.error.inj he2 ▸ hinv

/-- Witness for C7: a mixed-case record is well-formed, and validating it
succeeds. -/
theorem claim_C7_witness :
    gidsWellFormed ⟨List.replicate 48 97, List.replicate 32 102, strCodes ("123456")⟩ ∧
    ∃ q, GidsAppletParameters.check_requirements
      ⟨List.replicate 48 97, List.replicate 32 102, strCodes ("123456")⟩ = .ok q :=
  ⟨by decide,
   (claim_C7.1 ⟨List.replicate 48 97, List.replicate 32 102,
      strCodes ("123456")⟩).1.mpr (by decide)⟩

/-- C8: every generated record passes its own validation: GIDS generation
yields a 48-character admin key, 32-character serial and 6-digit pin and
validates cleanly (also on re-validation); GP generation yields a
32-character lock key; pin generation yields 6- and 8-digit pins; OpenPGP
install-parameter generation yields an 8-character serial. -/
theorem claim_C8 (b24 b16 bk16 b4 : List (Fin 256)) (d6 d8 : List (Fin 10))
    (h24 : b24.length = 24) (h16 : b16.length = 16) (hk16 : bk16.length = 16)
    (h4 : b4.length = 4) (hd6 : d6.length = 6) (hd8 : d8.length = 8) :
    (GidsAppletParameters.generate b24 b16 d6 =
      .ok ⟨pyUpper (tokenHex b24), pyUpper (tokenHex b16), generate_decimal_pin d6⟩) ∧
    (pyUpper (tokenHex b24)).length = 48 ∧
    (pyUpper (tokenHex b16)).length = 32 ∧
    (generate_decimal_pin d6).length = 6 ∧
    (GidsAppletParameters.check_requirements
      ⟨pyUpper (tokenHex b24), pyUpper (tokenHex b16), generate_decimal_pin d6⟩ =
      .ok ⟨pyUpper (tokenHex b24), pyUpper (tokenHex b16), generate_decimal_pin d6⟩) ∧
    (GPParameters.generate bk16 = .ok ⟨pyUpper (tokenHex bk16)⟩) ∧
    (pyUpper (tokenHex bk16)).length = 32 ∧
    (GPParameters.enforce_requirements ⟨pyUpper (tokenHex bk16)⟩ =
      .ok ⟨pyUpper (tokenHex bk16)⟩) ∧
    (OpenPGPPins.generate d8 d6 =
      .ok ⟨generate_decimal_pin d6, generate_decimal_pin d8⟩) ∧
    (generate_decimal_pin d8).length = 8 ∧
    (OpenPGPPins.check_requirements
      ⟨generate_decimal_pin d6, generate_decimal_pin d8⟩ =
      .ok ⟨generate_decimal_pin d6, generate_decimal_pin d8⟩) ∧
    (OpenPGPAppletInstallParameters.generate (strCodes ("fff5")) b4 =
      .ok ⟨pyUpper (tokenHex b4), strCodes ("fff5")⟩) ∧
    (pyUpper (tokenHex b4)).length = 8 ∧
    (OpenPGPAppletInstallParameters.check_requirements
      ⟨pyUpper (tokenHex b4), strCodes ("fff5")⟩ =
      .ok ⟨pyUpper (tokenHex b4), strCodes ("fff5")⟩) := by
  have la : (tokenHex b24).length = 48 := by rw [tokenHex_length, h24]
  have ls : (tokenHex b16).length = 32 := by rw [tokenHex_length, h16]
  have lk : (tokenHex bk16).length = 32 := by rw [tokenHex_length, hk16]
  have l4 : (tokenHex b4).length = 8 := by rw [tokenHex_length, h4]
  have lp6 : (generate_decimal_pin d6).length = 6 := by
    rw [generate_decimal_pin_length, hd6]
  have lp8 : (generate_decimal_pin d8).length = 8 := by
    rw [generate_decimal_pin_length, hd8]
  have hwf : gidsWellFormed ⟨tokenHex b24, tokenHex b16, generate_decimal_pin d6⟩ :=
    ⟨⟨la, tokenHex_mem b24⟩, ⟨ls, tokenHex_mem b16⟩, lp6,
     generate_decimal_pin_mem d6⟩
  have hwf2 : gidsWellFormed
      ⟨pyUpper (tokenHex b24), pyUpper (tokenHex b16), generate_decimal_pin d6⟩ :=
    ⟨⟨by rw [pyUpper_length]; exact la, pyUpper_mem_class (tokenHex_mem b24)⟩,
     ⟨by rw [pyUpper_length]; exact ls, pyUpper_mem_class (tokenHex_mem b16)⟩,
     lp6, generate_decimal_pin_mem d6⟩
  have hpwf : pinsWellFormed ⟨generate_decimal_pin d6, generate_decimal_pin d8⟩ := by
    refine ⟨⟨?_, ?_, generate_decimal_pin_mem d8⟩, ?_, ?_,
      generate_decimal_pin_mem d6⟩
    · show 8 ≤ (generate_decimal_pin d8).length
      omega
    · show (generate_decimal_pin d8).length ≤ 127
      omega
    · show 6 ≤ (generate_decimal_pin d6).length
      omega
    · show (generate_decimal_pin d6).length ≤ 127
      omega
  refine ⟨gids_check_ok _ hwf, by rw [pyUpper_length]; exact la,
    by rw [pyUpper_length]; exact ls, lp6, ?_,
    gp_generate_ok bk16 hk16, by rw [pyUpper_length]; exact lk,
    gp_enforce_generated bk16 hk16,
    pins_check_ok _ hpwf, lp8, pins_check_ok _ hpwf,
    pgp_generate_any (strCodes ("fff5")) b4 h4,
    by rw [pyUpper_length]; exact l4, ?_⟩
  · have := gids_check_ok _ hwf2
    simpa [pyUpper_pyUpper] using this
  · have hlow : pyLower (strCodes ("fff5")) = strCodes ("fff5") := by decide
    have := pgp_check_ok ⟨pyUpper (tokenHex b4), strCodes ("fff5")⟩
      ⟨by rw [pyUpper_length]; exact l4, pyUpper_mem_class (tokenHex_mem b4),
       (by decide : (strCodes ("fff5")).length = 4),
       (by decide : ∀ c ∈ strCodes ("fff5"), c ∈ hexClassCodes)⟩
    simpa [pyUpper_pyUpper, hlow] using this

/-- Witness for C8 at concrete all-zero draws. -/
theorem claim_C8_witness :
    GidsAppletParameters.generate (List.replicate 24 (0 : Fin 256))
        (List.replicate 16 (0 : Fin 256)) (List.replicate 6 (0 : Fin 10)) =
      .ok ⟨List.replicate 48 48, List.replicate 32 48, List.replicate 6 48⟩ ∧
    GPParameters.generate (List.replicate 16 (0 : Fin 256)) =
      .ok ⟨List.replicate 32 48⟩ ∧
    OpenPGPPins.generate (List.replicate 8 (0 : Fin 10))
        (List.replicate 6 (0 : Fin 10)) =
      .ok ⟨List.replicate 6 48, List.replicate 8 48⟩ ∧
    OpenPGPAppletInstallParameters.generate (strCodes ("fff5"))
        (List.replicate 4 (0 : Fin 256)) =
      .ok ⟨List.replicate 8 48, strCodes ("fff5")⟩ := by
  have h := claim_C8 (List.replicate 24 0) (List.replicate 16 0)
    (List.replicate 16 0) (List.replicate 4 0) (List.replicate 6 0)
    (List.replicate 8 0) (by decide) (by decide) (by decide) (by decide)
    (by decide) (by decide)
  exact ⟨h.1.trans (by decide), h.2.2.2.2.2.1.trans (by decide),
    (h.2.2.2.2.2.2.2.2.1).trans (by decide),
    (h.2.2.2.2.2.2.2.2.2.2.2.1).trans (by decide)⟩

/-- C9: on an absent file, `load_or_generate_gp_params` produces a record,
persists it, and a second call on the resulting file returns a
structurally equal record, whatever bytes the second call's generator
would draw. -/
theorem claim_C9 (bytes : List (Fin 256)) (h : bytes.length = 16) :
    ∃ g, load_or_generate_gp_params .absent bytes = (.ok g, .parses g) ∧
      ∀ bytes2, load_or_generate_gp_params (.parses g) bytes2 =
        (.ok g, .parses g) := by
  refine ⟨⟨pyUpper (tokenHex bytes)⟩, ?_, ?_⟩
  · simp [load_or_generate_gp_params, GPParameters.load_toml,
      gp_generate_ok bytes h]
  · intro bytes2
    simp [load_or_generate_gp_params, GPParameters.load_toml,
      gp_enforce_generated bytes h]

/-- Witness for C9 at concrete zero bytes: the generated record is the
all-zero key, and re-loading it returns the same record. -/
theorem claim_C9_witness :
    load_or_generate_gp_params .absent (List.replicate 16 (0 : Fin 256)) =
      (.ok ⟨List.replicate 32 48⟩, .parses ⟨List.replicate 32 48⟩) ∧
    load_or_generate_gp_params (.parses ⟨List.replicate 32 48⟩)
        (List.replicate 16 (0 : Fin 256)) =
      (.ok ⟨List.replicate 32 48⟩, .parses ⟨List.replicate 32 48⟩) := by
  obtain ⟨g, h1, h2⟩ := claim_C9 (List.replicate 16 (0 : Fin 256)) (by decide)
  have hx : load_or_generate_gp_params .absent (List.replicate 16 (0 : Fin 256)) =
      (.ok (⟨List.replicate 32 48⟩ : GPParameters),
       .parses ⟨List.replicate 32 48⟩) := by decide
  rw [hx] at h1
  simp only [Prod.mk.injEq, Except.ok.injEq] at h1
  obtain ⟨hg, -⟩ := h1
  rw [← hg] at h2
  exact ⟨hx, h2 (List.replicate 16 (0 : Fin 256))⟩

/-- C10: for every valid OpenPGP install-parameter record,
`compute_extra_args` returns `["--create", aid]` where `aid` is the
32-hex-character concatenation of the fixed prefix `d276000124010304`,
the lowercased 4-character manufacturer code, the uppercased 8-character
serial number, and the suffix `0000`. -/
theorem claim_C10 (p : OpenPGPAppletInstallParameters) (h : pgpInstallValid p) :
    SmartPGPApplet.compute_extra_args p =
      .ok [strCodes ("--create"),
        strCodes ("d276000124010304") ++ pyLower p.manufacturer_code ++
          pyUpper p.sn ++ strCodes ("0000")] ∧
    (strCodes ("d276000124010304") ++ pyLower p.manufacturer_code ++
      pyUpper p.sn ++ strCodes ("0000")).length = 32 ∧
    ∀ c ∈ strCodes ("d276000124010304") ++ pyLower p.manufacturer_code ++
      pyUpper p.sn ++ strCodes ("0000"), c ∈ hexClassCodes := by
  obtain ⟨h1, h2, h3, h4⟩ := h
  have lpre : (strCodes ("d276000124010304")).length = 16 := by decide
  have lsuf : (strCodes ("0000")).length = 4 := by decide
  refine ⟨?_, ?_, ?_⟩
  · simp [SmartPGPApplet.compute_extra_args, pgp_check_ok p ⟨h1, h2, h3, h4⟩]
  · simp [List.length_append, pyLower_length, pyUpper_length, h1, h3, lpre, lsuf]
  · intro c hc
    simp only [List.mem_append] at hc
    rcases hc with ((hp | hm) | hs) | ht
    · revert hp
      have : ∀ c ∈ strCodes ("d276000124010304"), c ∈ hexClassCodes := by decide
      exact this c
    · exact pyLower_mem_class h4 c hm
    · exact pyUpper_mem_class h2 c hs
    · revert ht
      have : ∀ c ∈ strCodes ("0000"), c ∈ hexClassCodes := by decide
      exact this c

/-- Witness for C10 at a concrete record with lowercase serial and
uppercase manufacturer code. -/
theorem claim_C10_witness :
    SmartPGPApplet.compute_extra_args ⟨strCodes ("0a1b2c3d"), strCodes ("FFF0")⟩ =
      .ok [strCodes ("--create"), strCodes ("d276000124010304fff00A1B2C3D0000")] :=
  (claim_C10 ⟨strCodes ("0a1b2c3d"), strCodes ("FFF0")⟩ (by decide)).1.trans
    (by decide)

/-- Witness for C6 at the concrete uppercase code `"FFF5"` (hex value
0xFFF5, inside the range): classification succeeds, lowercases the code
and reports it reserved. -/
theorem claim_C6_witness :
    OpenPGPAppletInstallParameters.is_manufacturer_reserved_for_random_sn
        ⟨strCodes ("00000000"), strCodes ("FFF5")⟩ =
      .ok (⟨strCodes ("00000000"), strCodes ("fff5")⟩, true) := by
  obtain ⟨b, hb, hiff⟩ :=
    claim_C6 (strCodes ("00000000")) (strCodes ("FFF5")) (by decide) (by decide)
  have hbt : b = true := hiff.mpr (by decide)
  have hlow : pyLower (strCodes ("FFF5")) = strCodes ("fff5") := by decide
  rw [hbt, hlow] at hb
  exact hb
